import Mathlib

/-!
Verification development for the ds-diag scoring and report engine.

The JavaScript sources (scoring.js, report.js, app.js) are shallowly
embedded here.  JavaScript numbers that can be non-finite are modelled by
the type JNum (NaN, plus or minus infinity, or a finite rational); after
the clamping helper toClampedNumber every value in the pipeline is a plain
rational, mirroring the fact that clamping always yields a finite number.
Response maps are association lists whose values are already coerced by
the Number function, as the sources do on access.
-/

namespace DsDiag

/-- A JavaScript number after Number coercion: NaN, an infinity, or a
finite value (modelled as a rational). -/
inductive JNum where
  | nan
  | inf
  | ninf
  | fin (q : ℚ)
deriving DecidableEq, Repr

/-- Number.isFinite from scoring.js line 26. -/
def JNum.isFinite : JNum → Bool
  | .fin _ => true
  | _ => false

/-- The JavaScript expression x || 0 on a number: NaN is falsy and becomes 0,
0 stays 0, everything else passes through. -/
def JNum.orZero : JNum → JNum
  | .nan => .fin 0
  | x => x

/-- The JavaScript expression x || 1 on a number: NaN and 0 are falsy and
become 1, everything else passes through. -/
def JNum.orOne : JNum → JNum
  | .nan => .fin 1
  | .fin q => if q = 0 then .fin 1 else .fin q
  | x => x

/-- JavaScript comparison x >= c for a finite right operand: false on NaN,
true on positive infinity. -/
def JNum.geB (x : JNum) (c : ℚ) : Bool :=
  match x with
  | .nan => false
  | .inf => true
  | .ninf => false
  | .fin q => decide (c ≤ q)

/-- JavaScript comparison x < c for a finite right operand: false on NaN
and on positive infinity. -/
def JNum.ltB (x : JNum) (c : ℚ) : Bool :=
  match x with
  | .nan => false
  | .inf => false
  | .ninf => true
  | .fin q => decide (q < c)

/-- toClampedNumber from scoring.js lines 24-28: a non-finite value becomes
the minimum, otherwise the value is clamped to the range. -/
def toClampedNumber (value : JNum) (lo hi : ℚ) : ℚ :=
  match value with
  | .fin q => min hi (max lo q)
  | _ => lo

/-- normalize0to3To100 from scoring.js lines 35-38. -/
def normalize0to3To100 (score0to3 : JNum) : ℚ :=
  toClampedNumber score0to3 0 3 / 3 * 100

/-- normalize1to4To100 from scoring.js lines 45-48. -/
def normalize1to4To100 (score1to4 : JNum) : ℚ :=
  (toClampedNumber score1to4 1 4 - 1) / 3 * 100

/-- A context response map: question key to the Number coercion of the
stored value. -/
abbrev CtxMap := List (String × JNum)

/-- A behavioral (maturity) response map. -/
abbrev RespMap := List (String × JNum)

/-- resolveContextValue from scoring.js lines 56-63: first alias present in
the map wins, otherwise the default raw value is 1. -/
def resolveContextValue (contextResponses : CtxMap) : List String → JNum
  | [] => .fin 1
  | k :: ks =>
    match contextResponses.lookup k with
    | some v => v
    | none => resolveContextValue contextResponses ks

/-- OPERATIONAL_WEIGHTS from scoring.js lines 1-7. -/
def OPERATIONAL_WEIGHTS : List (String × ℚ) :=
  [("teamSize", 1/4), ("productComplexity", 1/4), ("aiUsage", 1/5),
   ("releaseFrequency", 3/20), ("toolingFragmentation", 3/20)]

/-- CONTEXT_KEY_ALIASES from scoring.js lines 9-15. -/
def CONTEXT_KEY_ALIASES : List (String × List String) :=
  [("teamSize", ["teamSize", "oc_team_size"]),
   ("productComplexity", ["productComplexity", "oc_product_complexity"]),
   ("aiUsage", ["aiUsage", "oc_ai_usage"]),
   ("releaseFrequency", ["releaseFrequency", "oc_release_frequency"]),
   ("toolingFragmentation", ["toolingFragmentation", "oc_tooling_fragmentation"])]

/-- Alias list for one factor, CONTEXT_KEY_ALIASES[factor] in the source. -/
def aliasesFor (factor : String) : List String :=
  (CONTEXT_KEY_ALIASES.lookup factor).getD []

/-- One entry of the operational pressure breakdown. -/
structure BreakdownEntry where
  raw : JNum
  score100 : ℚ
  weight : ℚ
  contribution : ℚ
deriving DecidableEq, Repr

/-- Body of the factor loop in computeOperationalPressure, scoring.js
lines 116-123. -/
def entryFor (contextResponses : CtxMap) (fw : String × ℚ) : BreakdownEntry :=
  let raw := resolveContextValue contextResponses (aliasesFor fw.1)
  let score100 := normalize1to4To100 raw
  ⟨raw, score100, fw.2, score100 * fw.2⟩

/-- Result of computeOperationalPressure. -/
structure OperationalPressure where
  OPI : ℚ
  breakdown : List (String × BreakdownEntry)
deriving DecidableEq, Repr

/-- computeOperationalPressure from scoring.js lines 111-126: the loop
accumulates one breakdown entry per weighted factor and sums the
contributions into the OPI. -/
def computeOperationalPressure (contextResponses : CtxMap) : OperationalPressure :=
  { OPI := (OPERATIONAL_WEIGHTS.map (fun fw => (entryFor contextResponses fw).contribution)).sum
    breakdown := OPERATIONAL_WEIGHTS.map (fun fw => (fw.1, entryFor contextResponses fw)) }

/-- A behavioral question as used by the scoring engine: its id and its
dimension tag (the other schema fields never reach scoring.js). -/
structure BehavioralQuestion where
  id : String
  dimension : String
deriving DecidableEq, Repr

/-- JavaScript String.prototype.toLowerCase, character-wise lowering (the
dimension names and weakness keys it is applied to are ASCII). -/
def jsToLower (s : String) : String := String.mk (s.data.map Char.toLower)

/-- Lower-cased dimension key of a question, scoring.js line 77. -/
def dimKeyOf (q : BehavioralQuestion) : String := jsToLower q.dimension

/-- Keys of the accumulator object in computeDimensionScores, in first-seen
order (JavaScript object insertion order). -/
def firstSeenKeys (questions : List BehavioralQuestion) : List String :=
  questions.foldl (fun acc q => if dimKeyOf q ∈ acc then acc else acc ++ [dimKeyOf q]) []

/-- Per-dimension maturity score record. -/
structure DimScore where
  avg : ℚ
  score100 : ℚ
  answered : ℕ
  total : ℕ
deriving DecidableEq, Repr

/-- The accumulated statistics of one dimension key in
computeDimensionScores, scoring.js lines 76-98: total counts every
question with the key, answered questions are clamped to the 0-3 range
and averaged (0 when nothing was answered). -/
def statsFor (responses : RespMap) (questions : List BehavioralQuestion)
    (key : String) : DimScore :=
  let grp := questions.filter (fun q => dimKeyOf q == key)
  let answeredVals := grp.filterMap (fun q => responses.lookup q.id)
  let count := answeredVals.length
  let sum := (answeredVals.map (fun v => toClampedNumber v 0 3)).sum
  let avg : ℚ := if count ≠ 0 then sum / count else 0
  ⟨avg, normalize0to3To100 (.fin avg), count, grp.length⟩

/-- computeDimensionScores from scoring.js lines 71-101. -/
def computeDimensionScores (responses : RespMap)
    (questions : List BehavioralQuestion) : List (String × DimScore) :=
  (firstSeenKeys questions).map (fun k => (k, statsFor responses questions k))

/-- computeSSI from scoring.js lines 133-138. -/
def computeSSI (dimensionScores : List (String × DimScore)) : ℚ :=
  if dimensionScores.isEmpty then 0
  else ((dimensionScores.map (fun p => p.2.score100)).sum) / dimensionScores.length

/-- computeAdequacyGap from scoring.js lines 146-148. -/
def computeAdequacyGap (SSI OPI : ℚ) : ℚ := SSI - OPI

/-- computeDimensionGaps from scoring.js lines 156-163. -/
def computeDimensionGaps (dimensionScores : List (String × DimScore))
    (OPI : ℚ) : List (String × ℚ) :=
  dimensionScores.map (fun p => (p.1, p.2.score100 - OPI))

/-- The per-dimension risk record of classifyRisks. -/
structure GapRisk where
  gap : ℚ
  risk : Bool
deriving DecidableEq, Repr

/-- The context record passed to classifyRisks. -/
structure RiskContext where
  aiUsage : JNum
  teamSize : JNum
  governanceAvg : JNum
  distributionAvg : JNum
deriving DecidableEq, Repr

/-- Result of classifyRisks. -/
structure RiskResult where
  byDimension : List (String × GapRisk)
  flags : List String
  hasRisk : Bool
deriving DecidableEq, Repr

/-- The entropy risk flag string, scoring.js line 193. -/
def entropyFlag : String := "Entropy risk (AI velocity > governance)"

/-- The drift risk flag string, scoring.js line 199. -/
def driftFlag : String := "Drift risk (scale > release discipline)"

/-- Body of the dimension loop in classifyRisks, scoring.js lines 182-188:
push the byDimension record, and push a flag when the gap is below -15. -/
def riskStep (acc : List (String × GapRisk) × List String) (p : String × ℚ) :
    List (String × GapRisk) × List String :=
  let isRisk := decide (p.2 < -15)
  (acc.1 ++ [(p.1, ⟨p.2, isRisk⟩)],
   if isRisk then acc.2 ++ [p.1 ++ " risk (gap < -15)"] else acc.2)

/-- classifyRisks from scoring.js lines 177-207: the dimension loop pushes
one byDimension record per gap and a flag for each gap below -15, then the
two cross-cutting rules append their flags; hasRisk reflects a non-empty
flag list. -/
def classifyRisks (dimensionGaps : List (String × ℚ)) (context : RiskContext) :
    RiskResult :=
  let acc := dimensionGaps.foldl riskStep
    (([], []) : List (String × GapRisk) × List String)
  let flags1 :=
    if context.aiUsage.orZero.geB 3 && context.governanceAvg.orZero.ltB 2
    then acc.2 ++ [entropyFlag] else acc.2
  let flags2 :=
    if context.teamSize.orZero.geB 3 && context.distributionAvg.orZero.ltB 2
    then flags1 ++ [driftFlag] else flags1
  ⟨acc.1, flags2, !flags2.isEmpty⟩

/-- The raw context block of the report model, scoring.js lines 255-270. -/
structure ContextRaw where
  teamSize : JNum
  productComplexity : JNum
  aiUsage : JNum
  releaseFrequency : JNum
  toolingFragmentation : JNum
deriving DecidableEq, Repr

/-- The context block of the report model. -/
structure ReportContext where
  raw : ContextRaw
  normalized100 : List (String × ℚ)
deriving DecidableEq, Repr

/-- The full report model, scoring.js lines 253-279. -/
structure ReportModel where
  context : ReportContext
  operationalPressure : OperationalPressure
  dimensionScores : List (String × DimScore)
  SSI : ℚ
  adequacyGap : ℚ
  dimensionGaps : List (String × ℚ)
  risks : RiskResult
deriving DecidableEq, Repr

/-- The expression Number(dimensionScores.governance?.avg || 0) from
scoring.js line 238: the average of the given key when present, else 0. -/
def avgOfKey (dimensionScores : List (String × DimScore)) (key : String) : ℚ :=
  ((dimensionScores.lookup key).map (fun s => s.avg)).getD 0

/-- computeReportModel from scoring.js lines 229-280. -/
def computeReportModel (responses : RespMap) (contextResponses : CtxMap)
    (behavioralQuestions : List BehavioralQuestion) : ReportModel :=
  let dimensionScores := computeDimensionScores responses behavioralQuestions
  let operationalPressure := computeOperationalPressure contextResponses
  let SSI := computeSSI dimensionScores
  let adequacyGap := computeAdequacyGap SSI operationalPressure.OPI
  let dimensionGaps := computeDimensionGaps dimensionScores operationalPressure.OPI
  let teamSize := resolveContextValue contextResponses (aliasesFor "teamSize")
  let aiUsage := resolveContextValue contextResponses (aliasesFor "aiUsage")
  let governanceAvg := avgOfKey dimensionScores "governance"
  let distributionAvg := avgOfKey dimensionScores "distribution"
  let risks := classifyRisks dimensionGaps
    ⟨aiUsage, teamSize, .fin governanceAvg, .fin distributionAvg⟩
  let normalized100 := CONTEXT_KEY_ALIASES.map
    (fun p => (p.1, normalize1to4To100 (resolveContextValue contextResponses p.2)))
  { context :=
      { raw :=
          ⟨teamSize,
           resolveContextValue contextResponses (aliasesFor "productComplexity"),
           aiUsage,
           resolveContextValue contextResponses (aliasesFor "releaseFrequency"),
           resolveContextValue contextResponses (aliasesFor "toolingFragmentation")⟩
        normalized100 := normalized100 }
    operationalPressure := operationalPressure
    dimensionScores := dimensionScores
    SSI := SSI
    adequacyGap := adequacyGap
    dimensionGaps := dimensionGaps
    risks := risks }

/-- toTitle from report.js lines 18-21: capitalize the first character. -/
def toTitle (key : String) : String :=
  match key.data with
  | [] => ""
  | c :: cs => String.mk (Char.toUpper c :: cs)

/-- An element of the list built by sortedDimensions. -/
structure SortEntry where
  dimension : String
  avg : ℚ
  score100 : ℚ
deriving DecidableEq, Repr

/-- Insert an entry behind every already-placed entry whose score is at
least as large.  Folding this from the left is the stable descending sort
performed by Array.prototype.sort with the comparator
(a, b) => b.score100 - a.score100 in report.js line 35: scores descend and
equal scores keep their original relative order. -/
def insDesc (x : SortEntry) : List SortEntry → List SortEntry
  | [] => [x]
  | y :: ys => if x.score100 ≤ y.score100 then y :: insDesc x ys else x :: y :: ys

/-- sortedDimensions from report.js lines 28-36. -/
def sortedDimensions (dimensionScores : List (String × DimScore)) : List SortEntry :=
  (dimensionScores.map (fun p => (⟨p.1, p.2.avg, p.2.score100⟩ : SortEntry))).foldl
    (fun acc x => insDesc x acc) []

/-- generateStrengths from report.js lines 72-80. -/
def generateStrengths (reportModel : ReportModel) : List SortEntry :=
  ((sortedDimensions reportModel.dimensionScores).take 2).map
    (fun d => ⟨toTitle d.dimension, d.avg, d.score100⟩)

/-- generateWeaknesses from report.js lines 87-96: reverse of the same
sorted sequence, then the first two. -/
def generateWeaknesses (reportModel : ReportModel) : List SortEntry :=
  (((sortedDimensions reportModel.dimensionScores).reverse).take 2).map
    (fun d => ⟨toTitle d.dimension, d.avg, d.score100⟩)

/-- Digits of a natural number n understood as tenths, rendered as the
string n/10 "." n%10. -/
def fmt10 (n : ℕ) : String := toString (n / 10) ++ "." ++ toString (n % 10)

/-- Number.prototype.toFixed(1): the sign of a negative argument is split
off and the magnitude is rounded to the nearest tenth, ties away from
zero (the ECMAScript rule picks the larger candidate after the sign has
been removed). -/
def toFixed1 (q : ℚ) : String :=
  if q < 0 then "-" ++ fmt10 (Int.toNat ⌊-q * 10 + 1/2⌋)
  else fmt10 (Int.toNat ⌊q * 10 + 1/2⌋)

/-- Decimal rendering of an integer. -/
def zToString (n : ℤ) : String :=
  if n < 0 then "-" ++ toString n.natAbs else toString n.natAbs

/-- JavaScript number-to-string interpolation, modelled exactly for
integral values (the questionnaire levels that reach it are the integers
1 to 4); a non-integral rational is rendered as a fraction, standing in
for the decimal expansion JavaScript would print. -/
def qToString (q : ℚ) : String :=
  if q.den = 1 then zToString q.num
  else zToString q.num ++ "/" ++ toString q.den

/-- Template interpolation of a JNum, as in the summary template string. -/
def JNum.jsToString : JNum → String
  | .nan => "NaN"
  | .inf => "Infinity"
  | .ninf => "-Infinity"
  | .fin q => qToString q

/-- Relationship phrase for an adequacy gap of at least 10, report.js line 51. -/
def bandHigh : String := "tends to sit above current operational pressure"

/-- Relationship phrase for a gap in [0, 10), report.js line 53. -/
def bandSlightlyAbove : String := "is slightly above current operational pressure"

/-- Relationship phrase for a gap in [-10, 0), report.js line 55. -/
def bandSlightlyBelow : String := "is slightly below current operational pressure"

/-- Relationship phrase for a gap below -10, report.js line 56. -/
def bandNotable : String := "may indicate a notable gap to current operational pressure"

/-- The fixed template string of generateSummary, report.js lines 58-64,
with the relationship phrase and the two context levels already rendered. -/
def summaryTemplate (SSI OPI AG : ℚ) (rel tsLevel aiLevel : String) : String :=
  "Current maturity signals (SSI " ++ toFixed1 SSI ++ ") " ++ rel ++ " (OPI " ++
    toFixed1 OPI ++ ", AG " ++ toFixed1 AG ++ "). With team size level " ++ tsLevel ++
    " and AI usage level " ++ aiLevel ++
    ", this tends to indicate where practice consistency may need reinforcement as delivery pace changes."

/-- generateSummary from report.js lines 43-65. -/
def generateSummary (reportModel : ReportModel) : String :=
  let SSI := reportModel.SSI
  let OPI := reportModel.operationalPressure.OPI
  let AG := reportModel.adequacyGap
  let rel :=
    if 10 ≤ AG then bandHigh
    else if 0 ≤ AG then bandSlightlyAbove
    else if -10 ≤ AG then bandSlightlyBelow
    else bandNotable
  summaryTemplate SSI OPI AG rel
    reportModel.context.raw.teamSize.orOne.jsToString
    reportModel.context.raw.aiUsage.orOne.jsToString

/-- First entropy-risk tip, report.js lines 110-112. -/
def tipEntropy1 : String :=
  "Add a contribution RFC template + review gate so AI-assisted changes are triaged with clear owners and decision criteria."

/-- Second entropy-risk tip, report.js lines 113-115. -/
def tipEntropy2 : String :=
  "Create a weekly governance check-in that reviews incoming system changes, exceptions, and follow-up actions."

/-- First drift-risk tip, report.js lines 119-121. -/
def tipDrift1 : String :=
  "Publish system releases on a fixed cadence with release notes and a lightweight migration checklist for consuming teams."

/-- Second drift-risk tip, report.js lines 122-124. -/
def tipDrift2 : String :=
  "Track package adoption and breakages after each release so distribution issues are visible within one sprint."

/-- Governance weakness tip, report.js lines 127-131. -/
def tipGovernance : String :=
  "Define who approves token/component changes and add a simple intake form so requests follow one visible path."

/-- Distribution weakness tip, report.js lines 133-137. -/
def tipDistribution : String :=
  "Set up one repeatable publish workflow (version, notes, package release) and treat failed releases as a tracked incident."

/-- Documentation weakness tip, report.js lines 139-143. -/
def tipDocumentation : String :=
  "Update docs in the same pull request as component changes, including examples for loading, empty, and error states."

/-- Components weakness tip, report.js lines 145-149. -/
def tipComponents : String :=
  "Standardize component API patterns (states, variants, naming) and add a pre-merge check for accessibility basics."

/-- Foundations weakness tip, report.js lines 151-155. -/
def tipFoundations : String :=
  "Move core style values into shared tokens and add a lint/review check to reduce hard-coded color and spacing values."

/-- Adoption weakness tip, report.js lines 157-161. -/
def tipAdoption : String :=
  "Set a quarterly adoption target for two high-traffic flows and review progress with concrete usage metrics."

/-- Generic fallback tip, report.js lines 164-166. -/
def tipFallback : String :=
  "Pick one low-scoring behavior per dimension and run a 2-week improvement sprint with a clear owner and observable success signal."

/-- The tips pushed by the rule sequence of generateGuidance, report.js
lines 104-161, before the fallback and the de-duplication: the two risk
pairs first, then the six weakness tips in their fixed order. -/
def guidanceBase (reportModel : ReportModel) : List String :=
  let riskFlags := reportModel.risks.flags
  let weakestKeys := (generateWeaknesses reportModel).map (fun d => jsToLower d.dimension)
  (if entropyFlag ∈ riskFlags then [tipEntropy1, tipEntropy2] else []) ++
  (if driftFlag ∈ riskFlags then [tipDrift1, tipDrift2] else []) ++
  (if "governance" ∈ weakestKeys then [tipGovernance] else []) ++
  (if "distribution" ∈ weakestKeys then [tipDistribution] else []) ++
  (if "documentation" ∈ weakestKeys then [tipDocumentation] else []) ++
  (if "components" ∈ weakestKeys then [tipComponents] else []) ++
  (if "foundations" ∈ weakestKeys then [tipFoundations] else []) ++
  (if "adoption" ∈ weakestKeys then [tipAdoption] else [])

/-- Array.from(new Set(tips)): drop every later duplicate, keeping the
first occurrence of each tip in order. -/
def dedupFirst : List String → List String
  | [] => []
  | x :: xs => x :: (dedupFirst xs).filter (fun y => y ≠ x)

/-- generateGuidance from report.js lines 103-170. -/
def generateGuidance (reportModel : ReportModel) : List String :=
  let tips := guidanceBase reportModel
  let withFallback := if tips.isEmpty then [tipFallback] else tips
  dedupFirst withFallback

/-- One dimension entry of the export payload, app.js lines 215-220. -/
structure ExportDimScore where
  avg : ℚ
  score100 : ℚ
deriving DecidableEq, Repr

/-- The export payload built by buildExportPayload, app.js lines 222-231. -/
structure ExportPayload where
  timestamp : String
  contextResponses : List (String × JNum)
  dimensionScores : List (String × ExportDimScore)
  SSI : ℚ
  OPI : ℚ
  adequacyGap : ℚ
  riskFlags : List String
  guidanceTips : List String
deriving DecidableEq, Repr

/-- buildExportPayload from app.js lines 212-232 (identical in
src/unnamed/part_000 lines 338-358): the timestamp and the raw state
context map are taken from the environment, the context map is copied
verbatim, and the numeric fields are read off the report model. -/
def buildExportPayload (timestamp : String) (stateContextResponses : CtxMap)
    (reportModel : ReportModel) (guidance : List String) : ExportPayload :=
  { timestamp := timestamp
    contextResponses := stateContextResponses
    dimensionScores := reportModel.dimensionScores.map
      (fun p => (p.1, ⟨p.2.avg, p.2.score100⟩))
    SSI := reportModel.SSI
    OPI := reportModel.operationalPressure.OPI
    adequacyGap := reportModel.adequacyGap
    riskFlags := reportModel.risks.flags
    guidanceTips := guidance }

/-! ## Helper lemmas -/

/-- The clamped value never exceeds the upper bound. -/
lemma toClampedNumber_le_hi (v : JNum) {lo hi : ℚ} (h : lo ≤ hi) :
    toClampedNumber v lo hi ≤ hi := by
  cases v <;> simp [toClampedNumber, h]

/-- The clamped value is at least the lower bound. -/
lemma lo_le_toClampedNumber (v : JNum) {lo hi : ℚ} (h : lo ≤ hi) :
    lo ≤ toClampedNumber v lo hi := by
  cases v <;> simp [toClampedNumber, h, le_max_left]

/-- The 1-4 normalization always lands in [0, 100]. -/
lemma normalize1to4To100_bounds (v : JNum) :
    0 ≤ normalize1to4To100 v ∧ normalize1to4To100 v ≤ 100 := by
  have h1 : (1 : ℚ) ≤ toClampedNumber v 1 4 := lo_le_toClampedNumber v (by norm_num)
  have h4 : toClampedNumber v 1 4 ≤ 4 := toClampedNumber_le_hi v (by norm_num)
  unfold normalize1to4To100
  constructor
  · have : 0 ≤ toClampedNumber v 1 4 - 1 := by linarith
    positivity
  · rw [div_mul_eq_mul_div, div_le_iff₀ (by norm_num : (0:ℚ) < 3)]
    linarith

/-- The 0-3 normalization always lands in [0, 100]. -/
lemma normalize0to3To100_bounds (v : JNum) :
    0 ≤ normalize0to3To100 v ∧ normalize0to3To100 v ≤ 100 := by
  have h0 : (0 : ℚ) ≤ toClampedNumber v 0 3 := lo_le_toClampedNumber v (by norm_num)
  have h3 : toClampedNumber v 0 3 ≤ 3 := toClampedNumber_le_hi v (by norm_num)
  unfold normalize0to3To100
  constructor
  · positivity
  · rw [div_mul_eq_mul_div, div_le_iff₀ (by norm_num : (0:ℚ) < 3)]
    linarith

/-- The contribution field of a breakdown entry is by construction the
score times the weight. -/
lemma entryFor_contribution (ctx : CtxMap) (fw : String × ℚ) :
    (entryFor ctx fw).contribution = (entryFor ctx fw).score100 * (entryFor ctx fw).weight :=
  rfl

/-- Expanded form of the OPI as the weighted sum over the five factors. -/
lemma OPI_expand (ctx : CtxMap) :
    (computeOperationalPressure ctx).OPI =
      normalize1to4To100 (resolveContextValue ctx (aliasesFor "teamSize")) * (1/4) +
      normalize1to4To100 (resolveContextValue ctx (aliasesFor "productComplexity")) * (1/4) +
      normalize1to4To100 (resolveContextValue ctx (aliasesFor "aiUsage")) * (1/5) +
      normalize1to4To100 (resolveContextValue ctx (aliasesFor "releaseFrequency")) * (3/20) +
      normalize1to4To100 (resolveContextValue ctx (aliasesFor "toolingFragmentation")) * (3/20) := by
  simp only [computeOperationalPressure, OPERATIONAL_WEIGHTS, entryFor,
    List.map_cons, List.map_nil, List.sum_cons, List.sum_nil]
  ring

/-- The OPI of any context map is nonnegative. -/
lemma OPI_nonneg (ctx : CtxMap) : 0 ≤ (computeOperationalPressure ctx).OPI := by
  rw [OPI_expand]
  have h1 := normalize1to4To100_bounds (resolveContextValue ctx (aliasesFor "teamSize"))
  have h2 := normalize1to4To100_bounds (resolveContextValue ctx (aliasesFor "productComplexity"))
  have h3 := normalize1to4To100_bounds (resolveContextValue ctx (aliasesFor "aiUsage"))
  have h4 := normalize1to4To100_bounds (resolveContextValue ctx (aliasesFor "releaseFrequency"))
  have h5 := normalize1to4To100_bounds (resolveContextValue ctx (aliasesFor "toolingFragmentation"))
  linarith [h1.1, h2.1, h3.1, h4.1, h5.1]

/-- The OPI of any context map is at most 100. -/
lemma OPI_le_100 (ctx : CtxMap) : (computeOperationalPressure ctx).OPI ≤ 100 := by
  rw [OPI_expand]
  have h1 := normalize1to4To100_bounds (resolveContextValue ctx (aliasesFor "teamSize"))
  have h2 := normalize1to4To100_bounds (resolveContextValue ctx (aliasesFor "productComplexity"))
  have h3 := normalize1to4To100_bounds (resolveContextValue ctx (aliasesFor "aiUsage"))
  have h4 := normalize1to4To100_bounds (resolveContextValue ctx (aliasesFor "releaseFrequency"))
  have h5 := normalize1to4To100_bounds (resolveContextValue ctx (aliasesFor "toolingFragmentation"))
  linarith [h1.2, h2.2, h3.2, h4.2, h5.2]

/-- A list has isEmpty false exactly when it is not the empty list. -/
lemma isEmpty_false_iff {α : Type} (l : List α) : l.isEmpty = false ↔ l ≠ [] := by
  cases l <;> simp

/-- Unfolding of the classifyRisks dimension loop: the byDimension list
and the per-dimension flags accumulate by map and filter. -/
lemma classify_loop (gaps : List (String × ℚ)) (b : List (String × GapRisk))
    (f : List String) :
    gaps.foldl riskStep (b, f) =
      (b ++ gaps.map (fun p => (p.1, ⟨p.2, decide (p.2 < -15)⟩)),
       f ++ (gaps.filter (fun p => decide (p.2 < -15))).map
         (fun p => p.1 ++ " risk (gap < -15)")) := by
  induction gaps generalizing b f with
  | nil => simp
  | cons g gs ih =>
    simp only [List.foldl_cons, riskStep, List.map_cons, List.filter_cons]
    rw [ih]
    by_cases h : g.2 < -15
    · simp [h, List.append_assoc]
    · simp [h, List.append_assoc]

/-! ## C1 -/

/-- C1: for every input to classifyRisks with finite context values, the
byDimension list records every gap with its risk bit set exactly when the
gap is below -15, the flag list consists of one flag per risky dimension in
order followed by the entropy flag exactly when aiUsage is at least 3 and
governanceAvg below 2 and the drift flag exactly when teamSize is at least
3 and distributionAvg below 2, with all rules independent and no early
exit; hasRisk holds exactly when the flag list is non-empty. -/
theorem C1_classifyRisks_rules (gaps : List (String × ℚ)) (ai ts gov dist : ℚ) :
    (classifyRisks gaps ⟨.fin ai, .fin ts, .fin gov, .fin dist⟩).byDimension =
      gaps.map (fun p => (p.1, ⟨p.2, decide (p.2 < -15)⟩)) ∧
    (classifyRisks gaps ⟨.fin ai, .fin ts, .fin gov, .fin dist⟩).flags =
      (gaps.filter (fun p => decide (p.2 < -15))).map
        (fun p => p.1 ++ " risk (gap < -15)") ++
      (if 3 ≤ ai ∧ gov < 2 then [entropyFlag] else []) ++
      (if 3 ≤ ts ∧ dist < 2 then [driftFlag] else []) ∧
    ((classifyRisks gaps ⟨.fin ai, .fin ts, .fin gov, .fin dist⟩).hasRisk = true ↔
      (classifyRisks gaps ⟨.fin ai, .fin ts, .fin gov, .fin dist⟩).flags ≠ []) := by
  have hloop := classify_loop gaps [] []
  refine ⟨?_, ?_, ?_⟩
  · simp [classifyRisks, hloop]
  · simp only [classifyRisks, hloop, JNum.orZero, JNum.geB, JNum.ltB, List.nil_append]
    by_cases h1 : 3 ≤ ai <;> by_cases h2 : gov < 2 <;>
      by_cases h3 : 3 ≤ ts <;> by_cases h4 : dist < 2 <;>
      simp [h1, h2, h3, h4, List.append_assoc]
  · simp only [classifyRisks, Bool.not_eq_true']
    exact isEmpty_false_iff _

/-- A non-finite value normalizes to 0 on the 1-4 scale: it clamps to the
range minimum 1, which maps to 0. -/
lemma normalize1to4To100_nonfinite (v : JNum) (h : v.isFinite = false) :
    normalize1to4To100 v = 0 := by
  cases v <;> simp_all [normalize1to4To100, toClampedNumber, JNum.isFinite]

/-- First-match alias resolution returns the stored value. -/
lemma resolveContextValue_head (ctx : CtxMap) (k : String) (ks : List String)
    (v : JNum) (h : ctx.lookup k = some v) :
    resolveContextValue ctx (k :: ks) = v := by
  simp [resolveContextValue, h]

/-- Alias resolution defaults to 1 when no alias is present. -/
lemma resolveContextValue_default (ctx : CtxMap) (aliases : List String)
    (h : ∀ k ∈ aliases, ctx.lookup k = none) :
    resolveContextValue ctx aliases = JNum.fin 1 := by
  induction aliases with
  | nil => rfl
  | cons k ks ih =>
    have hk : ctx.lookup k = none := h k (List.mem_cons_self k ks)
    simp only [resolveContextValue, hk]
    exact ih (fun a ha => h a (List.mem_cons_of_mem k ha))

/-! ## C2 -/

/-- C2: the five operational factor weights sum to exactly 1, and for every
context map whose values are finite numbers in [1, 4] the OPI lies in
[0, 100], each breakdown entry contributing its score100 times its weight
with score100 in [0, 100]. -/
theorem C2_weights_sum_and_OPI_range (ctx : CtxMap)
    (_hvals : ∀ p ∈ ctx, ∃ q : ℚ, p.2 = JNum.fin q ∧ 1 ≤ q ∧ q ≤ 4) :
    (OPERATIONAL_WEIGHTS.map (fun fw => fw.2)).sum = 1 ∧
    (0 ≤ (computeOperationalPressure ctx).OPI ∧
      (computeOperationalPressure ctx).OPI ≤ 100) ∧
    ∀ fe ∈ (computeOperationalPressure ctx).breakdown,
      fe.2.contribution = fe.2.score100 * fe.2.weight ∧
      0 ≤ fe.2.score100 ∧ fe.2.score100 ≤ 100 := by
  refine ⟨by norm_num [OPERATIONAL_WEIGHTS], ⟨OPI_nonneg ctx, OPI_le_100 ctx⟩, ?_⟩
  intro fe hfe
  simp only [computeOperationalPressure, OPERATIONAL_WEIGHTS, List.map_cons,
    List.map_nil, List.mem_cons, List.not_mem_nil, or_false] at hfe
  rcases hfe with h | h | h | h | h <;> subst h <;>
    exact ⟨entryFor_contribution _ _, (normalize1to4To100_bounds _).1,
      (normalize1to4To100_bounds _).2⟩

/-- Witness for C2 at a concrete valid context map. -/
theorem C2_witness :
    (OPERATIONAL_WEIGHTS.map (fun fw => fw.2)).sum = 1 ∧
    (0 ≤ (computeOperationalPressure [("teamSize", JNum.fin 2)]).OPI ∧
      (computeOperationalPressure [("teamSize", JNum.fin 2)]).OPI ≤ 100) ∧
    ∀ fe ∈ (computeOperationalPressure [("teamSize", JNum.fin 2)]).breakdown,
      fe.2.contribution = fe.2.score100 * fe.2.weight ∧
      0 ≤ fe.2.score100 ∧ fe.2.score100 ≤ 100 :=
  C2_weights_sum_and_OPI_range [("teamSize", JNum.fin 2)] (by
    intro p hp
    simp only [List.mem_singleton] at hp
    subst hp
    exact ⟨2, rfl, by norm_num, by norm_num⟩)

/-! ## C10 -/

/-- C10: for every context map, each breakdown entry keeps score100 in
[0, 100] and its contribution in [0, weight * 100], with a non-finite raw
value normalizing to 0; the raw field stores the first matching alias
value without clamping or defaulting, only fully absent keys default the
raw value to 1, and a stored NaN shows up verbatim as the raw field. -/
theorem C10_breakdown_raw_passthrough (ctx : CtxMap) :
    (∀ fe ∈ (computeOperationalPressure ctx).breakdown,
      (0 ≤ fe.2.score100 ∧ fe.2.score100 ≤ 100) ∧
      (0 ≤ fe.2.contribution ∧ fe.2.contribution ≤ fe.2.weight * 100) ∧
      fe.2.raw = resolveContextValue ctx (aliasesFor fe.1) ∧
      (fe.2.raw.isFinite = false → fe.2.score100 = 0)) ∧
    (∀ (k : String) (ks : List String) (v : JNum), ctx.lookup k = some v →
      resolveContextValue ctx (k :: ks) = v) ∧
    (∀ aliases : List String, (∀ k ∈ aliases, ctx.lookup k = none) →
      resolveContextValue ctx aliases = JNum.fin 1) ∧
    (computeOperationalPressure [("teamSize", JNum.nan)]).breakdown.lookup "teamSize" =
      some ⟨JNum.nan, 0, 1/4, 0⟩ := by
  refine ⟨?_, resolveContextValue_head ctx, resolveContextValue_default ctx, by
    norm_num [computeOperationalPressure, OPERATIONAL_WEIGHTS, entryFor, aliasesFor,
      CONTEXT_KEY_ALIASES, resolveContextValue, normalize1to4To100, toClampedNumber,
      List.lookup_cons]⟩
  intro fe hfe
  simp only [computeOperationalPressure, OPERATIONAL_WEIGHTS, List.map_cons,
    List.map_nil, List.mem_cons, List.not_mem_nil, or_false] at hfe
  have entry_facts : ∀ (f : String) (w : ℚ), 0 ≤ w →
      (0 ≤ (entryFor ctx (f, w)).score100 ∧ (entryFor ctx (f, w)).score100 ≤ 100) ∧
      (0 ≤ (entryFor ctx (f, w)).contribution ∧
        (entryFor ctx (f, w)).contribution ≤ (entryFor ctx (f, w)).weight * 100) ∧
      (entryFor ctx (f, w)).raw = resolveContextValue ctx (aliasesFor f) ∧
      ((entryFor ctx (f, w)).raw.isFinite = false →
        (entryFor ctx (f, w)).score100 = 0) := by
    intro f w hw
    have hb := normalize1to4To100_bounds (resolveContextValue ctx (aliasesFor f))
    refine ⟨⟨hb.1, hb.2⟩, ⟨mul_nonneg hb.1 hw, ?_⟩, rfl, ?_⟩
    · calc normalize1to4To100 (resolveContextValue ctx (aliasesFor f)) * w
          ≤ 100 * w := mul_le_mul_of_nonneg_right hb.2 hw
        _ = w * 100 := mul_comm _ _
    · intro hnf
      exact normalize1to4To100_nonfinite _ hnf
  rcases hfe with h | h | h | h | h <;> subst h <;>
    exact entry_facts _ _ (by norm_num)

/-- Witness for C10: aliasing returns the stored aiUsage value and fully
absent teamSize keys default to 1. -/
theorem C10_witness :
    resolveContextValue [("aiUsage", JNum.fin 4)] ("aiUsage" :: ["oc_ai_usage"]) =
      JNum.fin 4 ∧
    resolveContextValue [("aiUsage", JNum.fin 4)] ["teamSize", "oc_team_size"] =
      JNum.fin 1 :=
  ⟨(C10_breakdown_raw_passthrough [("aiUsage", JNum.fin 4)]).2.1 "aiUsage"
      ["oc_ai_usage"] (JNum.fin 4) (by decide),
   (C10_breakdown_raw_passthrough [("aiUsage", JNum.fin 4)]).2.2.1
      ["teamSize", "oc_team_size"] (by decide)⟩

/-- Witness for C1 at a one-dimension gap list that trips the dimension
rule and the entropy rule but not the drift rule. -/
theorem C1_witness :
    (classifyRisks [("governance", -20)]
      ⟨.fin 4, .fin 1, .fin 0, .fin 0⟩).flags =
      ["governance risk (gap < -15)", entropyFlag] := by
  rw [(C1_classifyRisks_rules [("governance", -20)] 4 1 0 0).2.1]
  with_unfolding_all rfl

/-! ## C3 -/

/-- With an empty response map every dimension accumulates zero answered
questions, so its statistics degrade to the zero record. -/
lemma statsFor_empty_responses (qs : List BehavioralQuestion) (k : String) :
    statsFor [] qs k = ⟨0, 0, 0, (qs.filter (fun q => dimKeyOf q == k)).length⟩ := by
  have hfm : (qs.filter (fun q => dimKeyOf q == k)).filterMap
      (fun q => List.lookup q.id ([] : RespMap)) = [] := by
    induction qs.filter (fun q => dimKeyOf q == k) with
    | nil => rfl
    | cons a l ih => simp [List.filterMap_cons, ih]
  unfold statsFor
  simp only [hfm, List.length_nil, List.map_nil, List.sum_nil]
  norm_num [normalize0to3To100, toClampedNumber]

/-- A score list whose entries all have score100 zero averages to zero. -/
lemma computeSSI_of_all_zero (scores : List (String × DimScore))
    (h : ∀ p ∈ scores, p.2.score100 = 0) : computeSSI scores = 0 := by
  unfold computeSSI
  cases scores with
  | nil => simp
  | cons s ss =>
    simp only [List.isEmpty_cons, if_neg Bool.false_ne_true]
    have hsum : ((s :: ss).map (fun p => p.2.score100)).sum = 0 := by
      apply List.sum_eq_zero
      intro x hx
      simp only [List.mem_map] at hx
      obtain ⟨p, hp, rfl⟩ := hx
      exact h p hp
    rw [hsum, zero_div]

/-- C3: empty response maps yield a fully defined report: with an empty
context map the OPI is 0 (every factor defaults to raw 1), with an empty
maturity map every dimension in the output has avg 0, score100 0 and
answered 0 and the SSI is 0, and with both maps empty the adequacy gap
equals SSI minus OPI, which is minus the OPI. -/
theorem C3_empty_maps_defined (resp : RespMap) (ctx : CtxMap)
    (qs : List BehavioralQuestion) :
    (computeReportModel resp [] qs).operationalPressure.OPI = 0 ∧
    (∀ p ∈ (computeReportModel [] ctx qs).dimensionScores,
      p.2.avg = 0 ∧ p.2.score100 = 0 ∧ p.2.answered = 0) ∧
    (computeReportModel [] ctx qs).SSI = 0 ∧
    (computeReportModel [] [] qs).adequacyGap =
      (computeReportModel [] [] qs).SSI -
        (computeReportModel [] [] qs).operationalPressure.OPI ∧
    (computeReportModel [] [] qs).adequacyGap =
      -(computeReportModel [] [] qs).operationalPressure.OPI := by
  have hOPI : (computeOperationalPressure ([] : CtxMap)).OPI = 0 := by
    with_unfolding_all rfl
  have hscores : ∀ p ∈ computeDimensionScores [] qs,
      p.2.avg = 0 ∧ p.2.score100 = 0 ∧ p.2.answered = 0 := by
    intro p hp
    simp only [computeDimensionScores, List.mem_map] at hp
    obtain ⟨k, _, rfl⟩ := hp
    rw [statsFor_empty_responses]
    exact ⟨rfl, rfl, rfl⟩
  have hSSI : computeSSI (computeDimensionScores [] qs) = 0 :=
    computeSSI_of_all_zero _ (fun p hp => (hscores p hp).2.1)
  refine ⟨hOPI, hscores, hSSI, rfl, ?_⟩
  show computeAdequacyGap (computeSSI (computeDimensionScores [] qs))
      (computeOperationalPressure []).OPI =
    -(computeOperationalPressure []).OPI
  rw [computeAdequacyGap, hSSI, zero_sub]

/-- Witness for C3 on a concrete two-question schema. -/
theorem C3_witness :
    (computeReportModel [] [] [⟨"g1", "governance"⟩, ⟨"d1", "distribution"⟩]).operationalPressure.OPI = 0 ∧
    (computeReportModel [] [] [⟨"g1", "governance"⟩, ⟨"d1", "distribution"⟩]).SSI = 0 :=
  ⟨(C3_empty_maps_defined [] [] [⟨"g1", "governance"⟩, ⟨"d1", "distribution"⟩]).1,
   (C3_empty_maps_defined [] [] [⟨"g1", "governance"⟩, ⟨"d1", "distribution"⟩]).2.2.1⟩

/-! ## C4 -/

/-- C4: both normalization functions are total and clamping: on the 0-3
scale, in-range values map linearly by x/3*100, values below the range
clamp to 0, values above clamp to 100, non-finite input maps to the
minimum image 0, the map is monotone non-decreasing on finite values, and
0, 1, 2, 3 map exactly to 0, 100/3, 200/3, 100; on the 1-4 scale the same
holds with the linear map (x-1)/3*100 and the four nodes 1, 2, 3, 4. -/
theorem C4_normalization_total_linear :
    (∀ q : ℚ, 0 ≤ q → q ≤ 3 → normalize0to3To100 (.fin q) = q / 3 * 100) ∧
    (∀ q : ℚ, q < 0 → normalize0to3To100 (.fin q) = 0) ∧
    (∀ q : ℚ, 3 < q → normalize0to3To100 (.fin q) = 100) ∧
    (∀ v : JNum, v.isFinite = false → normalize0to3To100 v = 0) ∧
    (∀ x y : ℚ, x ≤ y → normalize0to3To100 (.fin x) ≤ normalize0to3To100 (.fin y)) ∧
    (normalize0to3To100 (.fin 0) = 0 ∧ normalize0to3To100 (.fin 1) = 100/3 ∧
      normalize0to3To100 (.fin 2) = 200/3 ∧ normalize0to3To100 (.fin 3) = 100) ∧
    (∀ q : ℚ, 1 ≤ q → q ≤ 4 → normalize1to4To100 (.fin q) = (q - 1) / 3 * 100) ∧
    (∀ q : ℚ, q < 1 → normalize1to4To100 (.fin q) = 0) ∧
    (∀ q : ℚ, 4 < q → normalize1to4To100 (.fin q) = 100) ∧
    (∀ v : JNum, v.isFinite = false → normalize1to4To100 v = 0) ∧
    (normalize1to4To100 (.fin 1) = 0 ∧ normalize1to4To100 (.fin 2) = 100/3 ∧
      normalize1to4To100 (.fin 3) = 200/3 ∧ normalize1to4To100 (.fin 4) = 100) := by
  refine ⟨?_, ?_, ?_, ?_, ?_, ?_, ?_, ?_, ?_, ?_, ?_⟩
  · intro q h0 h3
    rw [normalize0to3To100, toClampedNumber, max_eq_right h0, min_eq_right h3]
  · intro q h
    rw [normalize0to3To100, toClampedNumber, max_eq_left h.le]
    norm_num
  · intro q h
    rw [normalize0to3To100, toClampedNumber,
      max_eq_right (le_trans (by norm_num) h.le), min_eq_left h.le]
    norm_num
  · intro v h
    cases v <;> simp_all [normalize0to3To100, toClampedNumber, JNum.isFinite]
  · intro x y hxy
    have hc : min 3 (max 0 x) ≤ min 3 (max 0 y) :=
      min_le_min (le_refl 3) (max_le_max (le_refl 0) hxy)
    rw [normalize0to3To100, normalize0to3To100, toClampedNumber, toClampedNumber]
    have hdiv : min 3 (max 0 x) / 3 ≤ min 3 (max 0 y) / 3 := by linarith
    exact mul_le_mul_of_nonneg_right hdiv (by norm_num)
  · refine ⟨?_, ?_, ?_, ?_⟩ <;> with_unfolding_all rfl
  · intro q h1 h4
    rw [normalize1to4To100, toClampedNumber, max_eq_right h1, min_eq_right h4]
  · intro q h
    rw [normalize1to4To100, toClampedNumber, max_eq_left h.le]
    norm_num
  · intro q h
    rw [normalize1to4To100, toClampedNumber,
      max_eq_right (le_trans (by norm_num) h.le), min_eq_left h.le]
    norm_num
  · exact normalize1to4To100_nonfinite
  · refine ⟨?_, ?_, ?_, ?_⟩ <;> with_unfolding_all rfl

/-- Witness for C4 at concrete inputs across the branches. -/
theorem C4_witness :
    normalize0to3To100 (.fin (3/2)) = (3/2) / 3 * 100 ∧
    normalize0to3To100 (.fin 5) = 100 ∧
    normalize0to3To100 .nan = 0 ∧
    normalize1to4To100 (.fin (-2)) = 0 :=
  ⟨C4_normalization_total_linear.1 (3/2) (by norm_num) (by norm_num),
   C4_normalization_total_linear.2.2.1 5 (by norm_num),
   C4_normalization_total_linear.2.2.2.1 .nan rfl,
   C4_normalization_total_linear.2.2.2.2.2.2.2.1 (-2) (by norm_num)⟩

/-! ## C5 -/

/-- A report model carrying a given dimensionScores list; the narrative
generators under test read only that field. -/
def mkModelOfScores (ds : List (String × DimScore)) : ReportModel :=
  { context := ⟨⟨.fin 1, .fin 1, .fin 1, .fin 1, .fin 1⟩, []⟩
    operationalPressure := ⟨0, []⟩
    dimensionScores := ds
    SSI := 0
    adequacyGap := 0
    dimensionGaps := []
    risks := ⟨[], [], false⟩ }

/-- Counterexample to C5: on two dimensions with equal score100 inserted as
alpha then beta, the strengths list keeps insertion order but the
weaknesses list reverses it, so the tie in the weaknesses list is NOT
broken by original insertion order. -/
theorem C5_counterexample :
    (generateStrengths (mkModelOfScores
        [("alpha", ⟨3/2, 50, 1, 1⟩), ("beta", ⟨3/2, 50, 1, 1⟩)])).map
      (fun d => d.dimension) = ["Alpha", "Beta"] ∧
    (generateWeaknesses (mkModelOfScores
        [("alpha", ⟨3/2, 50, 1, 1⟩), ("beta", ⟨3/2, 50, 1, 1⟩)])).map
      (fun d => d.dimension) = ["Beta", "Alpha"] ∧
    (["Beta", "Alpha"] : List String) ≠ ["Alpha", "Beta"] :=
  ⟨by with_unfolding_all rfl, by with_unfolding_all rfl, by decide⟩

/-- C5 amended: strengths are the top 2 of the stable descending sort and
weaknesses the first 2 of its reversal, so on the 90/50/10 fixture the
results are [Alpha, Beta] and [Gamma, Beta]; on two equal-score dimensions
the tie is broken by insertion order in the strengths list and by REVERSE
insertion order in the weaknesses list. -/
theorem C5_amended_sorting :
    ((generateStrengths (mkModelOfScores
        [("alpha", ⟨27/10, 90, 1, 1⟩), ("beta", ⟨3/2, 50, 1, 1⟩),
         ("gamma", ⟨3/10, 10, 1, 1⟩)])).map (fun d => d.dimension) =
      ["Alpha", "Beta"] ∧
     (generateWeaknesses (mkModelOfScores
        [("alpha", ⟨27/10, 90, 1, 1⟩), ("beta", ⟨3/2, 50, 1, 1⟩),
         ("gamma", ⟨3/10, 10, 1, 1⟩)])).map (fun d => d.dimension) =
      ["Gamma", "Beta"]) ∧
    ∀ (a b : String) (sa sb : DimScore) (m : ReportModel),
      m.dimensionScores = [(a, sa), (b, sb)] → sa.score100 = sb.score100 →
      (generateStrengths m).map (fun d => d.dimension) = [toTitle a, toTitle b] ∧
      (generateWeaknesses m).map (fun d => d.dimension) = [toTitle b, toTitle a] := by
  refine ⟨⟨by with_unfolding_all rfl, by with_unfolding_all rfl⟩, ?_⟩
  intro a b sa sb m hm hs
  have hsort : sortedDimensions m.dimensionScores =
      [⟨a, sa.avg, sa.score100⟩, ⟨b, sb.avg, sb.score100⟩] := by
    rw [hm]
    simp [sortedDimensions, insDesc, hs]
  constructor
  · simp [generateStrengths, hsort]
  · simp [generateWeaknesses, hsort]

/-- Witness for the general part of the amended C5 on a fresh two-entry
equal-score fixture. -/
theorem C5_witness :
    (generateStrengths (mkModelOfScores
        [("x", ⟨1, 40, 1, 1⟩), ("y", ⟨1, 40, 1, 1⟩)])).map (fun d => d.dimension) =
      [toTitle "x", toTitle "y"] ∧
    (generateWeaknesses (mkModelOfScores
        [("x", ⟨1, 40, 1, 1⟩), ("y", ⟨1, 40, 1, 1⟩)])).map (fun d => d.dimension) =
      [toTitle "y", toTitle "x"] :=
  C5_amended_sorting.2 "x" "y" ⟨1, 40, 1, 1⟩ ⟨1, 40, 1, 1⟩ _ rfl rfl

/-! ## C6 -/

/-- Counterexample to C6: with aiUsage raw 4 and all governance answers 0,
governance score100 is 0 while the OPI is 20, so the governance gap is -20
and the per-dimension flag fires in addition to the entropy flag; the flag
list is not exactly the single entropy flag. -/
theorem C6_counterexample :
    resolveContextValue [("aiUsage", JNum.fin 4)] (aliasesFor "aiUsage") =
      JNum.fin 4 ∧
    avgOfKey (computeDimensionScores [("g1", JNum.fin 0)] [⟨"g1", "governance"⟩])
      "governance" = 0 ∧
    (computeReportModel [("g1", JNum.fin 0)] [("aiUsage", JNum.fin 4)]
        [⟨"g1", "governance"⟩]).risks.flags =
      ["governance risk (gap < -15)", entropyFlag] ∧
    (computeReportModel [("g1", JNum.fin 0)] [("aiUsage", JNum.fin 4)]
        [⟨"g1", "governance"⟩]).risks.flags ≠ [entropyFlag] := by
  refine ⟨by with_unfolding_all rfl, by with_unfolding_all rfl,
    by with_unfolding_all rfl, ?_⟩
  have heval : (computeReportModel [("g1", JNum.fin 0)] [("aiUsage", JNum.fin 4)]
      [⟨"g1", "governance"⟩]).risks.flags =
      ["governance risk (gap < -15)", entropyFlag] := by with_unfolding_all rfl
  rw [heval]
  decide

/-- C6 amended: for every response set producing aiUsage raw 4 and a
governance average below 2, the computed report's flag list CONTAINS the
entropy flag (other flags, such as per-dimension gap flags, may appear as
well). -/
theorem C6_amended_entropy_flag (resp : RespMap) (ctx : CtxMap)
    (qs : List BehavioralQuestion)
    (hai : resolveContextValue ctx (aliasesFor "aiUsage") = JNum.fin 4)
    (hgov : avgOfKey (computeDimensionScores resp qs) "governance" < 2) :
    entropyFlag ∈ (computeReportModel resp ctx qs).risks.flags := by
  show entropyFlag ∈ (classifyRisks
    (computeDimensionGaps (computeDimensionScores resp qs)
      (computeOperationalPressure ctx).OPI)
    ⟨resolveContextValue ctx (aliasesFor "aiUsage"),
     resolveContextValue ctx (aliasesFor "teamSize"),
     .fin (avgOfKey (computeDimensionScores resp qs) "governance"),
     .fin (avgOfKey (computeDimensionScores resp qs) "distribution")⟩).flags
  rw [hai]
  simp only [classifyRisks, JNum.orZero, JNum.geB, JNum.ltB]
  have hcond : (decide ((3:ℚ) ≤ 4) &&
      decide (avgOfKey (computeDimensionScores resp qs) "governance" < 2)) = true := by
    rw [Bool.and_eq_true]
    exact ⟨decide_eq_true (by norm_num), decide_eq_true hgov⟩
  rw [if_pos hcond]
  split <;> simp

/-- Witness for the amended C6 at the counterexample input. -/
theorem C6_witness :
    entropyFlag ∈ (computeReportModel [("g1", JNum.fin 0)]
      [("aiUsage", JNum.fin 4)] [⟨"g1", "governance"⟩]).risks.flags :=
  C6_amended_entropy_flag [("g1", JNum.fin 0)] [("aiUsage", JNum.fin 4)]
    [⟨"g1", "governance"⟩] (by with_unfolding_all rfl)
    (by
      rw [show avgOfKey (computeDimensionScores [("g1", JNum.fin 0)]
        [⟨"g1", "governance"⟩]) "governance" = 0 from by with_unfolding_all rfl]
      norm_num)

/-! ## C7 -/

/-- The four adequacy-gap bands exactly as the claim states them, with
explicit disjoint intervals. -/
def claimBand (AG : ℚ) : String :=
  if 10 ≤ AG then bandHigh
  else if 0 ≤ AG ∧ AG < 10 then bandSlightlyAbove
  else if -10 ≤ AG ∧ AG < 0 then bandSlightlyBelow
  else bandNotable

/-- The cascading relationship conditional of generateSummary picks the
same phrase as the interval-based band function. -/
lemma relChain_eq_claimBand (AG : ℚ) :
    (if 10 ≤ AG then bandHigh
     else if 0 ≤ AG then bandSlightlyAbove
     else if -10 ≤ AG then bandSlightlyBelow
     else bandNotable) = claimBand AG := by
  unfold claimBand
  by_cases h1 : 10 ≤ AG
  · simp [h1]
  · by_cases h2 : 0 ≤ AG
    · simp [h1, h2, lt_of_not_ge h1]
    · by_cases h3 : -10 ≤ AG
      · simp [h1, h2, h3, lt_of_not_ge h2]
      · simp [h1, h2, h3]

/-- The interval of each band phrase: the adequacy gap lies in a band
interval exactly when the band function picks that phrase. -/
lemma claimBand_cases (AG : ℚ) :
    (10 ≤ AG ↔ claimBand AG = bandHigh) ∧
    ((0 ≤ AG ∧ AG < 10) ↔ claimBand AG = bandSlightlyAbove) ∧
    ((-10 ≤ AG ∧ AG < 0) ↔ claimBand AG = bandSlightlyBelow) ∧
    (AG < -10 ↔ claimBand AG = bandNotable) := by
  unfold claimBand
  split_ifs with h1 h2 h3
  · refine ⟨iff_of_true h1 rfl, ?_, ?_, ?_⟩
    · exact iff_of_false (fun hc => by linarith [hc.2])
        (by simp [bandHigh, bandSlightlyAbove])
    · exact iff_of_false (fun hc => by linarith [hc.2])
        (by simp [bandHigh, bandSlightlyBelow])
    · exact iff_of_false (by intro hc; linarith) (by simp [bandHigh, bandNotable])
  · refine ⟨?_, iff_of_true h2 rfl, ?_, ?_⟩
    · exact iff_of_false h1 (by simp [bandHigh, bandSlightlyAbove])
    · exact iff_of_false (fun hc => by linarith [hc.2, h2.1])
        (by simp [bandSlightlyAbove, bandSlightlyBelow])
    · exact iff_of_false (by intro hc; linarith [h2.1])
        (by simp [bandSlightlyAbove, bandNotable])
  · refine ⟨?_, ?_, iff_of_true h3 rfl, ?_⟩
    · exact iff_of_false h1 (by simp [bandHigh, bandSlightlyBelow])
    · exact iff_of_false h2 (by simp [bandSlightlyAbove, bandSlightlyBelow])
    · exact iff_of_false (by intro hc; linarith [h3.1])
        (by simp [bandSlightlyBelow, bandNotable])
  · refine ⟨?_, ?_, ?_, ?_⟩
    · exact iff_of_false h1 (by simp [bandHigh, bandNotable])
    · exact iff_of_false h2 (by simp [bandSlightlyAbove, bandNotable])
    · exact iff_of_false h3 (by simp [bandSlightlyBelow, bandNotable])
    · refine iff_of_true ?_ rfl
      by_contra hc
      push_neg at h1 h2 h3 hc
      exact absurd (h2 (h3 hc)) (not_le.mpr h1)

/-- An integral, non-zero level passes through the || 1 default and renders
as its plain decimal digits. -/
lemma jsToString_orOne_intCast (n : ℤ) (hn : n ≠ 0) :
    (JNum.fin (n : ℚ)).orOne.jsToString = zToString n := by
  have hq : ((n : ℚ)) ≠ 0 := Int.cast_ne_zero.mpr hn
  simp [JNum.orOne, JNum.jsToString, qToString, hq, hn, Rat.den_intCast,
    Rat.num_intCast]

/-- C7: generateSummary renders the fixed template with SSI, OPI and the
adequacy gap to one decimal and the raw integral team-size and AI-usage
levels, choosing the relationship phrase of exactly the band the adequacy
gap falls in: at least 10, [0, 10), [-10, 0), or below -10. -/
theorem C7_generateSummary_bands (m : ReportModel) (tsL aiL : ℤ)
    (hts : m.context.raw.teamSize = JNum.fin (tsL : ℚ))
    (hai : m.context.raw.aiUsage = JNum.fin (aiL : ℚ))
    (hts0 : tsL ≠ 0) (hai0 : aiL ≠ 0) :
    generateSummary m = summaryTemplate m.SSI m.operationalPressure.OPI
      m.adequacyGap (claimBand m.adequacyGap) (zToString tsL) (zToString aiL) ∧
    (10 ≤ m.adequacyGap ↔ claimBand m.adequacyGap = bandHigh) ∧
    ((0 ≤ m.adequacyGap ∧ m.adequacyGap < 10) ↔
      claimBand m.adequacyGap = bandSlightlyAbove) ∧
    ((-10 ≤ m.adequacyGap ∧ m.adequacyGap < 0) ↔
      claimBand m.adequacyGap = bandSlightlyBelow) ∧
    (m.adequacyGap < -10 ↔ claimBand m.adequacyGap = bandNotable) := by
  have hc := claimBand_cases m.adequacyGap
  refine ⟨?_, hc.1, hc.2.1, hc.2.2.1, hc.2.2.2⟩
  simp only [generateSummary, relChain_eq_claimBand, hts, hai,
    jsToString_orOne_intCast tsL hts0, jsToString_orOne_intCast aiL hai0]

/-- Witness for C7 at a concrete model with gap 12, team size 2, AI 3. -/
theorem C7_witness :
    generateSummary { mkModelOfScores [] with
        context := ⟨⟨.fin 2, .fin 1, .fin 3, .fin 1, .fin 1⟩, []⟩
        operationalPressure := ⟨20, []⟩
        SSI := 55
        adequacyGap := 12 } =
      summaryTemplate 55 20 12 (claimBand 12) (zToString 2) (zToString 3) :=
  (C7_generateSummary_bands _ 2 3 (by with_unfolding_all rfl)
    (by with_unfolding_all rfl) (by decide) (by decide)).1

/-! ## C8 -/

/-- The ten fixed tips a guidance run can draw from, in rule order. -/
def allGuidanceTips : List String :=
  [tipEntropy1, tipEntropy2, tipDrift1, tipDrift2, tipGovernance,
   tipDistribution, tipDocumentation, tipComponents, tipFoundations, tipAdoption]

/-- A conditional block is a sublist of its full block. -/
lemma ite_sublist (c : Prop) [Decidable c] (L : List String) :
    List.Sublist (if c then L else []) L := by
  split
  · exact List.Sublist.refl _
  · exact List.nil_sublist _

/-- The tip sequence pushed by the guidance rules is a sublist of the ten
fixed tips in order. -/
lemma guidanceBase_sublist (m : ReportModel) :
    List.Sublist (guidanceBase m) allGuidanceTips := by
  unfold guidanceBase
  simp only [List.append_assoc]
  exact (ite_sublist _ _).append ((ite_sublist _ _).append ((ite_sublist _ _).append
    ((ite_sublist _ _).append ((ite_sublist _ _).append ((ite_sublist _ _).append
      ((ite_sublist _ _).append (ite_sublist _ _)))))))

/-- The ten fixed tips are pairwise distinct. -/
lemma allGuidanceTips_nodup : allGuidanceTips.Nodup := by decide

/-- The guidance rule output never contains a duplicate. -/
lemma guidanceBase_nodup (m : ReportModel) : (guidanceBase m).Nodup :=
  allGuidanceTips_nodup.sublist (guidanceBase_sublist m)

/-- De-duplication is the identity on a duplicate-free list. -/
lemma dedupFirst_eq_self : ∀ {l : List String}, l.Nodup → dedupFirst l = l
  | [], _ => rfl
  | x :: xs, h => by
    rw [dedupFirst, dedupFirst_eq_self (List.Nodup.of_cons h)]
    rw [List.filter_eq_self.mpr]
    intro y hy
    exact decide_eq_true (fun heq => (List.nodup_cons.mp h).1 (heq ▸ hy))

/-- C8: generateGuidance returns exactly the rule sequence (risk tips
first, then the weakness tips in fixed enumeration order) when any rule
fired, and exactly the single generic fallback tip otherwise; the result
is always duplicate-free and never empty. -/
theorem C8_generateGuidance_rules (m : ReportModel) :
    generateGuidance m =
      (if guidanceBase m = [] then [tipFallback] else guidanceBase m) ∧
    (generateGuidance m).Nodup ∧
    generateGuidance m ≠ [] := by
  have hded : generateGuidance m =
      if guidanceBase m = [] then [tipFallback] else guidanceBase m := by
    simp only [generateGuidance]
    cases hb : guidanceBase m with
    | nil => simp [dedupFirst]
    | cons x xs =>
      rw [List.isEmpty_cons]
      simp only [Bool.false_eq_true, if_false, List.cons_ne_nil, if_neg]
      exact dedupFirst_eq_self (hb ▸ guidanceBase_nodup m)
  refine ⟨hded, ?_, ?_⟩
  · rw [hded]
    split
    · exact List.nodup_singleton _
    · exact guidanceBase_nodup m
  · rw [hded]
    split
    · exact List.cons_ne_nil _ _
    · assumption

/-- Witness for C8 on a model with no risks and no dimensions: the result
is the single fallback tip and is non-empty. -/
theorem C8_witness :
    generateGuidance (mkModelOfScores []) =
      (if guidanceBase (mkModelOfScores []) = [] then [tipFallback]
       else guidanceBase (mkModelOfScores [])) ∧
    generateGuidance (mkModelOfScores []) ≠ [] :=
  ⟨(C8_generateGuidance_rules (mkModelOfScores [])).1,
   (C8_generateGuidance_rules (mkModelOfScores [])).2.2⟩

/-! ## C9 -/

/-- The average of clamped 0-3 values over any answered list stays in
[0, 3]. -/
lemma clampedAvg_bounds (L : List JNum) :
    0 ≤ (if L.length ≠ 0 then
          ((L.map (fun v => toClampedNumber v 0 3)).sum) / (L.length : ℚ) else 0) ∧
    (if L.length ≠ 0 then
          ((L.map (fun v => toClampedNumber v 0 3)).sum) / (L.length : ℚ) else 0) ≤ 3 := by
  split_ifs with h
  · have hlen : (0:ℚ) < (L.length : ℚ) := by
      exact_mod_cast Nat.pos_of_ne_zero h
    have hsum0 : 0 ≤ (L.map (fun v => toClampedNumber v 0 3)).sum := by
      apply List.sum_nonneg
      intro x hx
      simp only [List.mem_map] at hx
      obtain ⟨v, _, rfl⟩ := hx
      exact lo_le_toClampedNumber v (by norm_num)
    have hsum3 : (L.map (fun v => toClampedNumber v 0 3)).sum ≤
        (L.map (fun v => toClampedNumber v 0 3)).length • (3:ℚ) := by
      apply List.sum_le_card_nsmul
      intro x hx
      simp only [List.mem_map] at hx
      obtain ⟨v, _, rfl⟩ := hx
      exact toClampedNumber_le_hi v (by norm_num)
    rw [List.length_map, nsmul_eq_mul] at hsum3
    constructor
    · exact div_nonneg hsum0 hlen.le
    · rw [div_le_iff₀ hlen]
      linarith
  · norm_num

/-- Per-dimension statistics stay in range for every response map. -/
lemma statsFor_avg_bounds (resp : RespMap) (qs : List BehavioralQuestion)
    (k : String) :
    0 ≤ (statsFor resp qs k).avg ∧ (statsFor resp qs k).avg ≤ 3 :=
  clampedAvg_bounds _

/-- Every entry of computeDimensionScores has avg in [0, 3] and score100 in
[0, 100]. -/
lemma dimensionScores_bounds (resp : RespMap) (qs : List BehavioralQuestion) :
    ∀ p ∈ computeDimensionScores resp qs,
      (0 ≤ p.2.avg ∧ p.2.avg ≤ 3) ∧ (0 ≤ p.2.score100 ∧ p.2.score100 ≤ 100) := by
  intro p hp
  simp only [computeDimensionScores, List.mem_map] at hp
  obtain ⟨k, _, rfl⟩ := hp
  exact ⟨statsFor_avg_bounds resp qs k, normalize0to3To100_bounds _⟩

/-- The SSI of a score list with entries in [0, 100] stays in [0, 100]. -/
lemma computeSSI_bounds (scores : List (String × DimScore))
    (h : ∀ p ∈ scores, 0 ≤ p.2.score100 ∧ p.2.score100 ≤ 100) :
    0 ≤ computeSSI scores ∧ computeSSI scores ≤ 100 := by
  unfold computeSSI
  cases scores with
  | nil => norm_num
  | cons s ss =>
    rw [if_neg (by simp)]
    have hlen : (0:ℚ) < ((s :: ss).length : ℚ) := by
      exact_mod_cast List.length_pos.mpr (List.cons_ne_nil s ss)
    have hsum0 : 0 ≤ ((s :: ss).map (fun p => p.2.score100)).sum := by
      apply List.sum_nonneg
      intro x hx
      simp only [List.mem_map] at hx
      obtain ⟨p, hp, rfl⟩ := hx
      exact (h p hp).1
    have hsum100 : ((s :: ss).map (fun p => p.2.score100)).sum ≤
        ((s :: ss).map (fun p => p.2.score100)).length • (100:ℚ) := by
      apply List.sum_le_card_nsmul
      intro x hx
      simp only [List.mem_map] at hx
      obtain ⟨p, hp, rfl⟩ := hx
      exact (h p hp).2
    rw [List.length_map, nsmul_eq_mul] at hsum100
    constructor
    · exact div_nonneg hsum0 hlen.le
    · rw [div_le_iff₀ hlen]
      linarith

/-- Counterexample to C9: a stored NaN context value is copied verbatim
into the export payload, so the payload can contain a non-finite number. -/
theorem C9_counterexample :
    ("teamSize", JNum.nan) ∈ (buildExportPayload "2026-02-03T04:05:06.000Z"
      [("teamSize", JNum.nan)]
      (computeReportModel [] [("teamSize", JNum.nan)] [⟨"g1", "governance"⟩])
      (generateGuidance (computeReportModel [] [("teamSize", JNum.nan)]
        [⟨"g1", "governance"⟩]))).contextResponses ∧
    JNum.nan.isFinite = false := by
  constructor
  · show ("teamSize", JNum.nan) ∈ [("teamSize", JNum.nan)]
    exact List.mem_singleton_self _
  · rfl

/-- C9 amended: every numeric field the payload derives from the report
model is finite and in range (SSI and OPI in [0, 100], adequacy gap in
[-100, 100], each dimension avg in [0, 3] and score100 in [0, 100]); the
contextResponses map is copied verbatim, so its numbers are finite exactly
when the input map contains only finite values. -/
theorem C9_amended_export_finiteness (ts : String) (ctx : CtxMap)
    (resp : RespMap) (qs : List BehavioralQuestion) (g : List String)
    (hfin : ∀ p ∈ ctx, p.2.isFinite = true) :
    (buildExportPayload ts ctx (computeReportModel resp ctx qs) g).contextResponses
      = ctx ∧
    (∀ p ∈ (buildExportPayload ts ctx (computeReportModel resp ctx qs)
        g).contextResponses, p.2.isFinite = true) ∧
    (0 ≤ (buildExportPayload ts ctx (computeReportModel resp ctx qs) g).SSI ∧
      (buildExportPayload ts ctx (computeReportModel resp ctx qs) g).SSI ≤ 100) ∧
    (0 ≤ (buildExportPayload ts ctx (computeReportModel resp ctx qs) g).OPI ∧
      (buildExportPayload ts ctx (computeReportModel resp ctx qs) g).OPI ≤ 100) ∧
    (-100 ≤ (buildExportPayload ts ctx (computeReportModel resp ctx qs)
        g).adequacyGap ∧
      (buildExportPayload ts ctx (computeReportModel resp ctx qs)
        g).adequacyGap ≤ 100) ∧
    (∀ p ∈ (buildExportPayload ts ctx (computeReportModel resp ctx qs)
        g).dimensionScores,
      (0 ≤ p.2.avg ∧ p.2.avg ≤ 3) ∧ (0 ≤ p.2.score100 ∧ p.2.score100 ≤ 100)) := by
  have hS : 0 ≤ computeSSI (computeDimensionScores resp qs) ∧
      computeSSI (computeDimensionScores resp qs) ≤ 100 :=
    computeSSI_bounds _ (fun p hp => (dimensionScores_bounds resp qs p hp).2)
  have hO : 0 ≤ (computeOperationalPressure ctx).OPI ∧
      (computeOperationalPressure ctx).OPI ≤ 100 :=
    ⟨OPI_nonneg ctx, OPI_le_100 ctx⟩
  refine ⟨rfl, fun p hp => hfin p hp, hS, hO, ?_, ?_⟩
  · have hgap : (buildExportPayload ts ctx (computeReportModel resp ctx qs)
        g).adequacyGap =
        computeSSI (computeDimensionScores resp qs) -
          (computeOperationalPressure ctx).OPI := rfl
    rw [hgap]
    constructor <;> linarith [hS.1, hS.2, hO.1, hO.2]
  · intro p hp
    simp only [buildExportPayload, List.mem_map] at hp
    obtain ⟨p0, hp0, rfl⟩ := hp
    exact dimensionScores_bounds resp qs p0 hp0

/-- Witness for the amended C9 at a finite concrete context map. -/
theorem C9_witness :
    (buildExportPayload "t" [("teamSize", JNum.fin 2)]
      (computeReportModel [] [("teamSize", JNum.fin 2)] []) []).contextResponses
      = [("teamSize", JNum.fin 2)] ∧
    (∀ p ∈ (buildExportPayload "t" [("teamSize", JNum.fin 2)]
      (computeReportModel [] [("teamSize", JNum.fin 2)] []) []).contextResponses,
      p.2.isFinite = true) :=
  ⟨(C9_amended_export_finiteness "t" [("teamSize", JNum.fin 2)] [] [] []
      (by decide)).1,
   (C9_amended_export_finiteness "t" [("teamSize", JNum.fin 2)] [] [] []
      (by decide)).2.1⟩

end DsDiag
